import Mathlib

/-!
Shallow embedding of the WinVPN-Manager connection orchestration core
(`src/app/core/powershell_backend.py` and `src/app/core/models.py`).

External effects (subprocess invocations of `powershell.exe`, `rasdial.exe`,
`rasphone.exe`) are modelled by oracle values describing each invocation's
outcome; the backend methods become pure functions of those oracles.  Python
exceptions (`RuntimeError` raised by `_run_powershell_json`,
`subprocess.TimeoutExpired` raised by `subprocess.run(timeout=...)`) are made
explicit with the `PyResult` type: a function returning `PyResult α` models a
Python method that either returns a value of type `α` or lets an exception
escape to its caller.  Python string idioms are modelled faithfully:
`str.strip()` by `pyStrip`, `str.lower()` by `pyLower` (ASCII case folding,
as in the source's ASCII-only patterns), `pat in s` by `strIn`,
`s.replace("'", "''")` by `pyReplaceQuote`, string truthiness (`a or b`,
`if part`) by emptiness tests.
-/

namespace WinVpn

/-- Python character-class test used by `str.strip()` (ASCII whitespace). -/
def isPySpace (c : Char) : Bool :=
  c = ' ' || c = '\t' || c = '\n' || c = '\r' || c = '\x0b' || c = '\x0c'

/-- Model of Python `str.strip()` on the character list: drop whitespace from
both ends. -/
def pyStripL (l : List Char) : List Char :=
  ((l.dropWhile isPySpace).reverse.dropWhile isPySpace).reverse

/-- Model of Python `str.strip()`. -/
def pyStrip (s : String) : String :=
  String.mk (pyStripL s.data)

/-- Model of Python `str.lower()` (ASCII case folding, which covers every
pattern the source matches against). -/
def pyLower (s : String) : String :=
  String.mk (s.data.map Char.toLower)

/-- Python string truthiness: `bool(s)` is `s != ""`; `a or b` picks `a`
when it is nonempty. -/
def firstNonEmpty (a b : String) : String :=
  if a = "" then b else a

/-- Model of `"\n".join(part for part in [a, b] if part)` from
`_run_powershell` / `_run_rasdial` (lines 300, 325 of the source). -/
def joinNonEmpty (a b : String) : String :=
  if a = "" then b else if b = "" then a else a ++ "\n" ++ b

/-- Decides whether `pat` is a leading segment of `l`. -/
def leadsWith (pat l : List Char) : Bool :=
  match pat, l with
  | [], _ => true
  | _ :: _, [] => false
  | a :: as, b :: bs => a = b && leadsWith as bs

/-- Decides whether `pat` occurs contiguously inside `l`: the model of
Python's substring test `pat in s`. -/
def occursIn (pat : List Char) : List Char → Bool
  | [] => pat.isEmpty
  | c :: rest => leadsWith pat (c :: rest) || occursIn pat rest

/-- Model of Python `pat in s` on strings. -/
def strIn (pat s : String) : Bool :=
  occursIn pat.data s.data

/-- The JSON-decoded values the backend reads out of `ConvertTo-Json` rows:
`null`, a string, or a list of strings (`_stringify` treats exactly these
shapes specially; the claims quantify over string-valued fields). -/
inductive PyVal where
  | null : PyVal
  | str : String → PyVal
  | listOfStr : List String → PyVal
deriving DecidableEq, Repr

/-- Python truthiness of a decoded JSON value (`None`, `""` and `[]` are
falsy). -/
def pyTruthy : PyVal → Bool
  | .null => false
  | .str s => s ≠ ""
  | .listOfStr l => l ≠ []

/-- Python `a or b` on a decoded value with a fallback. -/
def pyOr (v fallback : PyVal) : PyVal :=
  if pyTruthy v then v else fallback

/-- Model of Python `str(v)` for the decoded values above.  `str(None)` is
the literal `"None"`; `str` of a list is its Python repr (rendered here for
members without embedded quotes, the only shape the claims exercise). -/
def pyStr : PyVal → String
  | .null => "None"
  | .str s => s
  | .listOfStr l => "[" ++ String.intercalate ", " (l.map (fun s => "'" ++ s ++ "'")) ++ "]"

/-- Model of `PowerShellRasBackend._stringify` (lines 358-363): `None`
becomes `""`, a list is joined with `", "`, anything else is `str(v)`. -/
def stringify : PyVal → String
  | .null => ""
  | .str s => s
  | .listOfStr l => String.intercalate ", " l

/-- One parsed row of a `Get-VpnConnection ... | ConvertTo-Json` listing:
a dict with the five selected keys, each possibly absent (`Option`).
`dict.get(k)` is `(row.k).getD .null`; `dict.get(k, d)` is `(row.k).getD d`. -/
structure Row where
  Name : Option PyVal := none
  ServerAddress : Option PyVal := none
  TunnelType : Option PyVal := none
  AuthenticationMethod : Option PyVal := none
  ConnectionStatus : Option PyVal := none
deriving DecidableEq, Repr

/-- `core/models.py` `VpnProfile` (all string fields plus the scope flag). -/
structure VpnProfile where
  name : String
  server_address : String
  tunnel_type : String
  authentication_method : String
  connection_status : String
  all_users : Bool := false
deriving DecidableEq, Repr

/-- `core/models.py` `VpnProfileSpec`. -/
structure VpnProfileSpec where
  name : String
  server_address : String
  tunnel_type : String
deriving DecidableEq, Repr

/-- `core/models.py` `OperationResult`: the uniform result envelope. -/
structure OperationResult where
  success : Bool
  message : String
  status : String := ""
  details : String := ""
deriving DecidableEq, Repr

/-- The two Python exception classes that can escape the backend's helpers:
`RuntimeError` (raised by `_run_powershell_json`, lines 259 and 266) and
`subprocess.TimeoutExpired` (raised by `subprocess.run(timeout=...)`). -/
inductive PyExc where
  | runtimeError : String → PyExc
  | timeoutExpired : PyExc
deriving DecidableEq, Repr

/-- Result of running a Python method body: a returned value or an escaped
exception. -/
inductive PyResult (α : Type) where
  | ok : α → PyResult α
  | raised : PyExc → PyResult α
deriving DecidableEq, Repr

/-- Outcome of one `subprocess.run` invocation: the process completed with
an exit code and captured output, or the call hit its `timeout` and
`subprocess.TimeoutExpired` was raised. -/
inductive ExecOutcome where
  | completed : Int → String → String → ExecOutcome
  | timedOut : ExecOutcome
deriving DecidableEq, Repr

/-- Outcome of the `rasphone.exe` credential-prompt invocation
(`open_native_credential_prompt`, `wait=True` path, lines 160-183): the
source distinguishes a completed run (any exit code counts as success),
`subprocess.TimeoutExpired`, and any other exception (`except Exception`). -/
inductive PromptOutcome where
  | completed : PromptOutcome
  | timedOut : PromptOutcome
  | raised : String → PromptOutcome
deriving DecidableEq, Repr

/-- Outcome of one `_run_powershell_json` structured query as the caller
observes it (lines 237-272): `rows` is a normal return carrying the
normalized row list (empty stdout or JSON `null` give `[]`, a single object
gives a one-element list); `toolError` is the `RuntimeError` raised on a
non-zero exit (line 259) or a JSON parse failure (line 266); `timeout` is
the `subprocess.TimeoutExpired` that `subprocess.run` raises and that
`_run_powershell_json` does not catch. -/
inductive PsJsonResult where
  | rows : List Row → PsJsonResult
  | toolError : String → PsJsonResult
  | timeout : PsJsonResult
deriving DecidableEq, Repr

/-- `PowerShellRasBackend._run_powershell_json` (lines 237-272) as the
mapping from the query outcome to return-or-raise. -/
def run_powershell_json : PsJsonResult → PyResult (List Row)
  | .rows rs => .ok rs
  | .toolError m => .raised (.runtimeError m)
  | .timeout => .raised .timeoutExpired

/-- The credential-remediation hint of `_add_credential_hint` (line 366). -/
def credentialHint : String :=
  "Please connect once via Windows VPN settings and save credentials."

/-- `PowerShellRasBackend._is_credential_issue` (lines 372-386): the
case-insensitive substring heuristic over `f"{message}\n{details}"`. -/
def is_credential_issue (message details : String) : Bool :=
  let combined := pyLower (message ++ "\n" ++ details)
  strIn "ras-fehler 691" combined
    || strIn "error 691" combined
    || strIn " 691" combined
    || strIn "benutzername" combined
    || strIn "kennwort" combined
    || strIn "authentifizierungsprotokoll" combined
    || strIn "verweigert" combined
    || strIn "credential" combined
    || strIn "password" combined
    || strIn "username" combined
    || strIn "timed out" combined

/-- `PowerShellRasBackend._add_credential_hint` (lines 365-370). -/
def add_credential_hint (message details : String) : String :=
  let text := pyStrip message
  if is_credential_issue message details then text ++ " " ++ credentialHint else text

/-- `PowerShellRasBackend._run_rasdial` (lines 306-329) as a function of the
`rasdial.exe` invocation outcome.  `subprocess.TimeoutExpired` is caught
(line 316); a completed process yields failure with `status="Error"` on a
non-zero exit and success with `status="Connected"` on exit 0. -/
def run_rasdial : ExecOutcome → OperationResult
  | .timedOut =>
      { success := false,
        message := add_credential_hint "rasdial timed out while waiting for credentials." "",
        status := "Error" }
  | .completed exitCode out err =>
      let stdout := pyStrip out
      let stderr := pyStrip err
      let details := joinNonEmpty stdout stderr
      if exitCode ≠ 0 then
        { success := false,
          message := add_credential_hint
            (firstNonEmpty stderr (firstNonEmpty stdout "rasdial returned an error.")) details,
          status := "Error", details := details }
      else
        { success := true, message := firstNonEmpty stdout "rasdial completed.",
          status := "Connected", details := details }

/-- `PowerShellRasBackend.connect` (lines 50-51): a single `rasdial.exe`
dispatch.  The profile name and scope only shape the command line, not the
result computation, and no status query is involved: the result is a
function of the rasdial outcome alone. -/
def connect (o : ExecOutcome) : OperationResult :=
  run_rasdial o

/-- `PowerShellRasBackend.get_status` (lines 35-48): `RuntimeError` from the
structured query maps to the defaulted `"Error"`; an empty row list maps to
`"Unknown"`; otherwise the result is `str(data[0].get("ConnectionStatus") or
"Unknown")` — the raw status string.  `subprocess.TimeoutExpired` is not a
`RuntimeError`, so it escapes the `except RuntimeError` handler. -/
def get_status (q : PsJsonResult) : PyResult String :=
  match run_powershell_json q with
  | .raised (.runtimeError _) => .ok "Error"
  | .raised .timeoutExpired => .raised .timeoutExpired
  | .ok [] => .ok "Unknown"
  | .ok (row :: _) => .ok (pyStr (pyOr (row.ConnectionStatus.getD .null) (.str "Unknown")))

/-- `PowerShellRasBackend._to_profiles` (lines 222-235). -/
def to_profiles (data : List Row) (all_users : Bool) : List VpnProfile :=
  data.map fun entry =>
    { name := pyStr (entry.Name.getD (.str "")),
      server_address := stringify (entry.ServerAddress.getD .null),
      tunnel_type := firstNonEmpty (stringify (entry.TunnelType.getD .null)) "Automatic",
      authentication_method := stringify (entry.AuthenticationMethod.getD .null),
      connection_status := stringify (pyOr (entry.ConnectionStatus.getD .null) (.str "Unknown")),
      all_users := all_users }

/-- The advisory `list_profiles` records in `self.last_error` when system
scope is requested without elevation (lines 23-26). -/
def adminListAdvisory : String :=
  "Admin privileges are required to list system-wide VPN profiles. Run the app as Administrator."

/-- The oracle for one `list_profiles` call: the caller's elevation as
`_is_admin` reports it, and the outcomes of the own-scope and system-scope
structured queries. -/
structure ListWorld where
  admin : Bool
  userQuery : PsJsonResult
  allUserQuery : PsJsonResult

/-- `PowerShellRasBackend.list_profiles` (lines 18-33), returning the profile
list paired with the final `self.last_error` value (reset to `""` on entry).
The own-scope query is unguarded: an exception from it escapes.  The
system-scope query runs only for an elevated caller, and only its
`RuntimeError` is caught (line 30); its `TimeoutExpired` escapes. -/
def list_profiles (w : ListWorld) (include_all_users : Bool) : PyResult (List VpnProfile × String) :=
  match run_powershell_json w.userQuery with
  | .raised e => .raised e
  | .ok rs =>
    let profiles := to_profiles rs false
    if include_all_users then
      if !w.admin then .ok (profiles, adminListAdvisory)
      else
        match run_powershell_json w.allUserQuery with
        | .ok rs2 => .ok (profiles ++ to_profiles rs2 true, "")
        | .raised (.runtimeError m) => .ok (profiles, "All-user query failed: " ++ m)
        | .raised .timeoutExpired => .raised .timeoutExpired
    else .ok (profiles, "")

/-- `PowerShellRasBackend._ensure_admin` (lines 403-411): `none` means
permission granted. -/
def ensure_admin (isAdmin all_users : Bool) : Option OperationResult :=
  if !all_users || isAdmin then none
  else some
    { success := false,
      message := "Admin privileges are required to manage system-wide VPN profiles. Run the app as Administrator.",
      status := "Error" }

/-- `PowerShellRasBackend._run_powershell` (lines 274-304) as a function of
the `powershell.exe` invocation outcome.  Nothing catches
`subprocess.TimeoutExpired` here, so a timeout escapes. -/
def run_powershell (o : ExecOutcome) (success_message : String) : PyResult OperationResult :=
  match o with
  | .timedOut => .raised .timeoutExpired
  | .completed exitCode out err =>
    let stdout := pyStrip out
    let stderr := pyStrip err
    let details := joinNonEmpty stdout stderr
    if exitCode ≠ 0 then
      .ok { success := false,
            message := firstNonEmpty stderr (firstNonEmpty stdout "PowerShell command failed."),
            status := "Error", details := details }
    else .ok { success := true, message := success_message, details := details }

/-- The character-level quote-doubling map of `v.replace("'", "''")`. -/
def escL (v : List Char) : List Char :=
  v.flatMap fun c => if c = '\'' then ['\'', '\''] else [c]

/-- Model of Python `v.replace("'", "''")`: for a one-character pattern,
`str.replace` substitutes every occurrence. -/
def pyReplaceQuote (v : String) : String :=
  String.mk (escL v.data)

/-- `PowerShellRasBackend._ps_quote` (lines 355-356). -/
def ps_quote (value : String) : String :=
  "'" ++ pyReplaceQuote value ++ "'"

/-- The `Add-VpnConnection` command string `create_profile` builds
(lines 104-112).  Note the literal `-TunnelType 'Automatic'`: the command
never mentions `spec.tunnel_type`. -/
def create_profile_command (spec : VpnProfileSpec) (all_users : Bool) : String :=
  "Add-VpnConnection -Name " ++ ps_quote spec.name
    ++ " -ServerAddress " ++ ps_quote spec.server_address
    ++ " -TunnelType 'Automatic' -RememberCredential"
    ++ (if all_users then " -AllUserConnection" else "")

/-- The listing row a mutation-storing fake executor echoes back after
receiving `create_profile_command spec all_users`: the `-Name` and
`-ServerAddress` arguments carry the spec's fields (their quoted literals
decode back exactly, see `ps_unquote_ps_quote`), while the tunnel type it
can store is the pinned literal `'Automatic'` — the command string never
mentions `spec.tunnel_type`. -/
def create_echo_row (spec : VpnProfileSpec) : Row :=
  { Name := some (.str spec.name),
    ServerAddress := some (.str spec.server_address),
    TunnelType := some (.str "Automatic"),
    ConnectionStatus := some (.str "Disconnected") }

/-- `PowerShellRasBackend.create_profile` (lines 99-113). -/
def create_profile (isAdmin : Bool) (spec : VpnProfileSpec) (all_users : Bool)
    (o : ExecOutcome) : PyResult OperationResult :=
  match ensure_admin isAdmin all_users with
  | some errRes => .ok errRes
  | none => run_powershell o ("Created VPN profile " ++ spec.name ++ ".")

/-- `PowerShellRasBackend.update_profile` (lines 115-135). -/
def update_profile (isAdmin : Bool) (name : String) (all_users : Bool)
    (o : ExecOutcome) : PyResult OperationResult :=
  match ensure_admin isAdmin all_users with
  | some errRes => .ok errRes
  | none => run_powershell o ("Updated VPN profile " ++ name ++ ".")

/-- `PowerShellRasBackend.delete_profile` (lines 137-145). -/
def delete_profile (isAdmin : Bool) (name : String) (all_users : Bool)
    (o : ExecOutcome) : PyResult OperationResult :=
  match ensure_admin isAdmin all_users with
  | some errRes => .ok errRes
  | none => run_powershell o ("Deleted VPN profile " ++ name ++ ".")

/-- `PowerShellRasBackend.disconnect` (lines 53-60): one rasdial dispatch;
on success the status is re-queried once (and a `TimeoutExpired` from that
query escapes, since `get_status` does not catch it). -/
def disconnect (o : ExecOutcome) (statusQ : PsJsonResult) : PyResult OperationResult :=
  let result := run_rasdial o
  if result.success then
    match get_status statusQ with
    | .raised e => .raised e
    | .ok st => .ok { result with status := st }
  else .ok result

/-- `PowerShellRasBackend.open_native_credential_prompt` (lines 147-183),
`wait=True` path as credential recovery invokes it: the completed run is
success regardless of the exit code (the result of `subprocess.run` is
discarded); the two exception handlers produce the failure results. -/
def open_native_credential_prompt (name : String) (timeoutSec : Nat)
    (o : PromptOutcome) : OperationResult :=
  match o with
  | .completed =>
      { success := true, message := "Opened Windows credential prompt for " ++ name ++ "." }
  | .timedOut =>
      { success := false,
        message := "Windows credential prompt timed out after " ++ toString timeoutSec ++ " seconds.",
        status := "Error" }
  | .raised exc =>
      { success := false, message := "Could not open Windows credential prompt: " ++ exc,
        status := "Error" }

/-- The oracle for one `connect_and_wait` call: the outcome of the k-th
`rasdial.exe` invocation (0 = first connect, 1 = the recovery retry), the
outcome of the `rasphone.exe` prompt, and the outcome of the k-th status
query issued by the polling loop. -/
structure CwWorld where
  rasdial : Nat → ExecOutcome
  rasphone : PromptOutcome
  statusQ : Nat → PsJsonResult

/-- `PowerShellRasBackend._connect_with_credential_recovery` (lines 185-206). -/
def connect_with_credential_recovery (w : CwWorld) (name : String) : OperationResult :=
  let first := connect (w.rasdial 0)
  if first.success then first
  else if !is_credential_issue first.message first.details then first
  else
    let prompt := open_native_credential_prompt name 120 w.rasphone
    if !prompt.success then
      { first with
        message := pyStrip (first.message ++ " Could not complete credential recovery: " ++ prompt.message) }
    else
      let retry := connect (w.rasdial 1)
      if retry.success then
        { retry with message := prompt.message ++ " Retried connection successfully." }
      else
        { retry with
          message := pyStrip (retry.message ++ " Credential prompt was shown and reconnect was retried once.") }

/-- How the polling loop of `connect_and_wait` ends when no exception
escapes: it returned the success result after observing `Connected`
(carrying that observed status), or it fell through to the timeout/failure
path carrying the final `last_status` (after a `break` on `Error`, or after
the `while` guard failed). -/
inductive LoopExit where
  | connected : String → LoopExit
  | fell : String → LoopExit
deriving DecidableEq, Repr

/-- The polling loop of `connect_and_wait` (lines 76-87), by remaining
iteration count.  `last` is the current `last_status`, `k` the index of the
next status query.  Each iteration re-reads `get_status`; `Connected`
returns immediately, `Error` breaks, anything else continues. -/
def pollLoop (statusAt : Nat → PyResult String) : String → Nat → Nat → PyResult LoopExit
  | last, 0, _ => .ok (.fell last)
  | _, fuel + 1, k =>
    match statusAt k with
    | .raised e => .raised e
    | .ok s =>
      if pyLower s = "connected" then .ok (.connected s)
      else if pyLower s = "error" then .ok (.fell s)
      else pollLoop statusAt s fuel (k + 1)

/-- Number of iterations the `while waited < max_wait` loop performs: before
iteration k (0-based) `waited = k * poll_interval`, so iteration k runs
exactly when `k * poll_interval < max_wait`; for `0 < poll_interval` that is
`k < ⌈max_wait / poll_interval⌉₊` (`numPolls_spec` below).  For
`poll_interval ≤ 0` and `max_wait > 0` the source loop never terminates;
the theorems about `connect_and_wait` therefore assume `0 < poll_interval`. -/
def numPolls (poll_interval max_wait : ℚ) : Nat :=
  if poll_interval ≤ 0 then 0 else Nat.ceil (max_wait / poll_interval)

/-- `PowerShellRasBackend.connect_and_wait` (lines 62-97). -/
def connect_and_wait (w : CwWorld) (name : String) (poll_interval max_wait : ℚ) :
    PyResult OperationResult :=
  let result := connect_with_credential_recovery w name
  if !result.success then .ok { result with status := "Error" }
  else
    match pollLoop (fun k => get_status (w.statusQ k)) "Connecting"
        (numPolls poll_interval max_wait) 0 with
    | .raised e => .raised e
    | .ok (.connected s) =>
        .ok { success := true, message := "Connected to " ++ name ++ ".", status := s }
    | .ok (.fell last) =>
      let message := add_credential_hint ("Timed out waiting for " ++ name ++ " to connect.")
        result.details
      let message :=
        if is_credential_issue message result.details
        then message ++ " Please save credentials in the Windows prompt." else message
      .ok { success := false, message := message,
            status := if last ≠ "" then last else "Error", details := result.details }

/-- The exact failure message `connect_and_wait` produces on its
timeout/failure path: the timeout text always contains `"timed out"` after
lowering, so the credential heuristic fires on it unconditionally and both
hints are always appended (independently of the diagnostic details). -/
def timeout_failure_message (name : String) : String :=
  "Timed out waiting for " ++ name ++ " to connect. " ++ credentialHint
    ++ " Please save credentials in the Windows prompt."

/-- PowerShell's single-quoted-literal scanner, inner part: consumes
characters after the opening quote; a doubled quote stands for one literal
quote, a single quote must be the final character (anything after it means
the literal terminated early and the remainder is not part of it). Returns
the decoded value only when the whole input is consumed. -/
def psUnquoteLoop : List Char → Option (List Char)
  | [] => none
  | [c] => if c = '\'' then some [] else none
  | c :: c2 :: rest =>
    if c = '\'' then
      if c2 = '\'' then (psUnquoteLoop rest).map (fun t => '\'' :: t) else none
    else (psUnquoteLoop (c2 :: rest)).map (fun t => c :: t)

/-- PowerShell's single-quoted-literal unescaping applied to a whole string:
strip the outer quotes, collapse doubled quotes; `none` when the input is
not exactly one complete single-quoted literal. -/
def ps_unquote (s : String) : Option String :=
  match s.data with
  | c :: rest => if c = '\'' then (psUnquoteLoop rest).map String.mk else none
  | [] => none

/-! Supporting lemmas. -/

theorem leadsWith_self_append (p t : List Char) : leadsWith p (p ++ t) = true := by
  induction p with
  | nil => rfl
  | cons a as ih => simp [leadsWith, ih]

theorem occursIn_of_leadsWith {p l : List Char} (h : leadsWith p l = true) :
    occursIn p l = true := by
  cases l with
  | nil => cases p with
    | nil => rfl
    | cons a as => simp [leadsWith] at h
  | cons c rest => simp [occursIn, h]

theorem occursIn_self_append (p t : List Char) : occursIn p (p ++ t) = true :=
  occursIn_of_leadsWith (leadsWith_self_append p t)

theorem strIn_of_data_eq {pat s : String} {t : List Char}
    (h : s.data = pat.data ++ t) : strIn pat s = true := by
  unfold strIn
  rw [h]
  exact occursIn_self_append _ _

/-- Any message that literally starts with `"Timed out"` is classified as a
credential issue, whatever the details: `"timed out"` is one of the
heuristic's substrings. -/
theorem is_credential_issue_of_timedOut_head (m D : String) (t : List Char)
    (h : m.data = "Timed out".data ++ t) : is_credential_issue m D = true := by
  have hlow : (pyLower ((m ++ "\n") ++ D)).data
      = "timed out".data ++ (t.map Char.toLower ++ ("\n".data ++ D.data).map Char.toLower) := by
    show ((m ++ "\n") ++ D).data.map Char.toLower = _
    rw [String.data_append, String.data_append, h]
    simp [List.map_append, List.append_assoc]
  have hsub : strIn "timed out" (pyLower ((m ++ "\n") ++ D)) = true :=
    strIn_of_data_eq hlow
  simp only [is_credential_issue]
  rw [hsub]
  simp

theorem pyStripL_sandwich (c : Char) (mid : List Char) (d : Char)
    (hc : isPySpace c = false) (hd : isPySpace d = false) :
    pyStripL (c :: (mid ++ [d])) = c :: (mid ++ [d]) := by
  unfold pyStripL
  rw [List.dropWhile_cons]
  simp only [hc, Bool.false_eq_true, if_false]
  rw [show (c :: (mid ++ [d])).reverse = d :: (mid.reverse ++ [c]) by simp]
  rw [List.dropWhile_cons]
  simp only [hd, Bool.false_eq_true, if_false]
  simp

/-- The timeout message of `connect_and_wait` is untouched by `.strip()`:
it starts with `T` and ends with `.`, neither of which is whitespace. -/
theorem pyStrip_timeout_msg (name : String) :
    pyStrip ("Timed out waiting for " ++ name ++ " to connect.")
      = "Timed out waiting for " ++ name ++ " to connect." := by
  apply String.ext
  show pyStripL (("Timed out waiting for " ++ name ++ " to connect.").data) = _
  have hdata : ("Timed out waiting for " ++ name ++ " to connect.").data
      = 'T' :: (("imed out waiting for ".data ++ (name.data ++ " to connect".data)) ++ ['.']) := by
    rw [String.data_append, String.data_append]
    rw [show "Timed out waiting for ".data = 'T' :: "imed out waiting for ".data from by decide]
    rw [show " to connect.".data = " to connect".data ++ ['.'] from by decide]
    simp [List.append_assoc]
  rw [hdata, pyStripL_sandwich 'T' _ '.' (by decide) (by decide)]

theorem timeout_msg_head (name : String) :
    ("Timed out waiting for " ++ name ++ " to connect.").data
      = "Timed out".data ++ (" waiting for ".data ++ (name.data ++ " to connect.".data)) := by
  rw [String.data_append, String.data_append]
  rw [show "Timed out waiting for ".data = "Timed out".data ++ " waiting for ".data from by decide]
  simp [List.append_assoc]

/-- The first hint of the timeout path: the heuristic always fires on the
timeout message, so `_add_credential_hint` always appends its hint. -/
theorem add_credential_hint_timeout (name D : String) :
    add_credential_hint ("Timed out waiting for " ++ name ++ " to connect.") D
      = ("Timed out waiting for " ++ name ++ " to connect.") ++ " " ++ credentialHint := by
  unfold add_credential_hint
  rw [is_credential_issue_of_timedOut_head _ D _ (timeout_msg_head name)]
  rw [pyStrip_timeout_msg]
  simp

/-- The complete message assembled on the timeout/failure path of
`connect_and_wait` equals `timeout_failure_message name`, independently of
the diagnostic details: both credential hints are always appended. -/
theorem fell_message_eq (name D : String) :
    (if is_credential_issue
          (add_credential_hint ("Timed out waiting for " ++ name ++ " to connect.") D) D
     then add_credential_hint ("Timed out waiting for " ++ name ++ " to connect.") D
            ++ " Please save credentials in the Windows prompt."
     else add_credential_hint ("Timed out waiting for " ++ name ++ " to connect.") D)
      = timeout_failure_message name := by
  simp only [add_credential_hint_timeout]
  have hhead : (("Timed out waiting for " ++ name ++ " to connect.") ++ " " ++ credentialHint).data
      = "Timed out".data ++ ((" waiting for ".data ++ (name.data ++ " to connect.".data))
          ++ (" ".data ++ credentialHint.data)) := by
    rw [String.data_append, String.data_append, timeout_msg_head]
    simp [List.append_assoc]
  rw [is_credential_issue_of_timedOut_head _ D _ hhead]
  simp only [if_true]
  apply String.ext
  simp [timeout_failure_message, String.data_append, List.append_assoc]

/-- A status string `get_status` returns is never empty: raw values pass
through only when truthy (nonempty), and the defaults are `"Unknown"` and
`"Error"`. -/
theorem get_status_ne_empty {q : PsJsonResult} {s : String}
    (h : get_status q = .ok s) : s ≠ "" := by
  cases q with
  | timeout => simp [get_status, run_powershell_json] at h
  | toolError m =>
    simp [get_status, run_powershell_json] at h
    subst h; decide
  | rows rs =>
    cases rs with
    | nil =>
      simp [get_status, run_powershell_json] at h
      subst h; decide
    | cons r rest =>
      simp [get_status, run_powershell_json] at h
      subst h
      cases hv : r.ConnectionStatus.getD .null with
      | null => simp [pyOr, pyTruthy, pyStr]
      | str v =>
        by_cases hv0 : v = ""
        · subst hv0; simp [pyOr, pyTruthy, pyStr]
        · simp [pyOr, pyTruthy, pyStr, hv0]
      | listOfStr l =>
        cases l with
        | nil => simp [pyOr, pyTruthy, pyStr]
        | cons a as =>
          simp only [pyOr, pyTruthy, pyStr, ne_eq]
          intro hcontra
          have := congrArg String.data hcontra
          simp [String.data_append] at this

/-- If `pyLower s` is a nonempty word, `s` is nonempty. -/
theorem ne_empty_of_pyLower_eq {s w : String} (hw : w ≠ "")
    (h : pyLower s = w) : s ≠ "" := by
  intro hs
  subst hs
  exact hw (by rw [← h]; rfl)

/-- A string whose lowering is not `"connected"` is not the literal
`"Connected"`. -/
theorem ne_Connected_of_pyLower {s : String} (h : pyLower s ≠ "connected") :
    s ≠ "Connected" := by
  intro hs
  subst hs
  exact h (by decide)

theorem pollLoop_zero (f : Nat → PyResult String) (last : String) (k : Nat) :
    pollLoop f last 0 k = .ok (.fell last) := rfl

theorem pollLoop_succ_connected {f : Nat → PyResult String} {k : Nat} {s : String}
    (hf : f k = .ok s) (hs : pyLower s = "connected") (last : String) (fuel : Nat) :
    pollLoop f last (fuel + 1) k = .ok (.connected s) := by
  simp [pollLoop, hf, hs]

theorem pollLoop_succ_error {f : Nat → PyResult String} {k : Nat} {s : String}
    (hf : f k = .ok s) (hs1 : pyLower s ≠ "connected") (hs2 : pyLower s = "error")
    (last : String) (fuel : Nat) :
    pollLoop f last (fuel + 1) k = .ok (.fell s) := by
  simp [pollLoop, hf, hs1, hs2]

theorem pollLoop_succ_step {f : Nat → PyResult String} {k : Nat} {s : String}
    (hf : f k = .ok s) (hs1 : pyLower s ≠ "connected") (hs2 : pyLower s ≠ "error")
    (last : String) (fuel : Nat) :
    pollLoop f last (fuel + 1) k = pollLoop f s fuel (k + 1) := by
  simp [pollLoop, hf, hs1, hs2]

/-- Running the loop past a prefix of `j` non-terminal observations: the
loop state advances to index `k + j` with `last_status` equal to the last
observation (or unchanged when `j = 0`). -/
theorem pollLoop_advance (f : Nat → PyResult String) (obs : Nat → String) :
    ∀ (j fuel k : Nat) (last : String),
      (∀ i, i < j → f (k + i) = .ok (obs (k + i)) ∧
        pyLower (obs (k + i)) ≠ "connected" ∧ pyLower (obs (k + i)) ≠ "error") →
      j ≤ fuel →
      pollLoop f last fuel k =
        pollLoop f (if j = 0 then last else obs (k + j - 1)) (fuel - j) (k + j) := by
  intro j
  induction j with
  | zero =>
    intro fuel k last _ _
    rw [if_pos rfl, Nat.sub_zero, Nat.add_zero]
  | succ j ih =>
    intro fuel k last hpre hj
    obtain ⟨fuel', rfl⟩ : ∃ fuel', fuel = fuel' + 1 :=
      ⟨fuel - 1, by omega⟩
    obtain ⟨hf0, hc0, he0⟩ := hpre 0 (Nat.succ_pos j)
    rw [Nat.add_zero] at hf0 hc0 he0
    rw [pollLoop_succ_step hf0 hc0 he0]
    have hstep := ih fuel' (k + 1) (obs k)
      (fun i hi => by
        have := hpre (i + 1) (by omega)
        simpa [Nat.add_assoc, Nat.add_comm 1 i] using this)
      (by omega)
    rw [hstep]
    have harg : (if j = 0 then obs k else obs (k + 1 + j - 1)) = obs (k + (j + 1) - 1) := by
      cases j with
      | zero => rfl
      | succ j' => rw [if_neg (Nat.succ_ne_zero j')]; congr 1; omega
    have h2 : fuel' - j = fuel' + 1 - (j + 1) := by omega
    have h3 : k + 1 + j = k + (j + 1) := by omega
    rw [harg, h2, h3, if_neg (Nat.succ_ne_zero j)]

/-- If every iteration the loop can run observes a non-terminal status, the
loop exhausts its budget and falls through with the last observation (or
the initial `last_status` when no iteration ran). -/
theorem pollLoop_deadline (f : Nat → PyResult String) (obs : Nat → String)
    (fuel : Nat) (last : String)
    (hpre : ∀ i, i < fuel → f i = .ok (obs i) ∧
      pyLower (obs i) ≠ "connected" ∧ pyLower (obs i) ≠ "error") :
    pollLoop f last fuel 0 = .ok (.fell (if fuel = 0 then last else obs (fuel - 1))) := by
  rw [pollLoop_advance f obs fuel fuel 0 last
    (fun i hi => by simpa using hpre i hi) le_rfl]
  rw [Nat.sub_self, pollLoop_zero, Nat.zero_add]

/-- The `fell` exit of the loop never carries a status that lowers to
`"connected"`, provided the initial `last_status` does not: such an
observation would have returned the success result instead. -/
theorem pollLoop_fell_not_connected (f : Nat → PyResult String) :
    ∀ (fuel k : Nat) (last s : String),
      pyLower last ≠ "connected" →
      pollLoop f last fuel k = .ok (.fell s) →
      pyLower s ≠ "connected" := by
  intro fuel
  induction fuel with
  | zero =>
    intro k last s hlast h
    simp [pollLoop] at h
    subst h; exact hlast
  | succ fuel ih =>
    intro k last s hlast h
    cases hf : f k with
    | raised e => simp [pollLoop, hf] at h
    | ok v =>
      by_cases hc : pyLower v = "connected"
      · rw [pollLoop_succ_connected hf hc] at h
        simp at h
      · by_cases he : pyLower v = "error"
        · rw [pollLoop_succ_error hf hc he] at h
          simp at h
          subst h; exact hc
        · rw [pollLoop_succ_step hf hc he] at h
          exact ih (k + 1) v s hc h

/-- `_connect_with_credential_recovery` reads only the rasdial and rasphone
oracles, never the status oracle. -/
theorem recovery_congr {w w' : CwWorld} (name : String)
    (hras : w'.rasdial = w.rasdial) (hph : w'.rasphone = w.rasphone) :
    connect_with_credential_recovery w' name = connect_with_credential_recovery w name := by
  simp [connect_with_credential_recovery, hras, hph]

/-- The iteration count is the faithful translation of the `while waited <
max_wait` guard: for a positive `poll_interval`, iteration `k` (0-based,
with `waited = k * poll_interval` at its guard check) runs exactly when
`k < numPolls`. -/
theorem numPolls_spec (poll_interval max_wait : ℚ) (hpi : 0 < poll_interval) (k : Nat) :
    k < numPolls poll_interval max_wait ↔ (k : ℚ) * poll_interval < max_wait := by
  unfold numPolls
  rw [if_neg (not_le.mpr hpi)]
  rw [Nat.lt_ceil]
  exact lt_div_iff₀ hpi

/-! Lemmas for the `_ps_quote` round trip. -/

theorem escL_cons_quote (v : List Char) : escL ('\'' :: v) = '\'' :: '\'' :: escL v := rfl

theorem escL_cons_other {c : Char} (v : List Char) (hc : ¬ c = '\'') :
    escL (c :: v) = c :: escL v := by
  simp [escL, hc]

/-- Scanning the escaped body followed by the closing quote consumes
everything and decodes back to the original characters. -/
theorem psUnquoteLoop_escL (v : List Char) :
    psUnquoteLoop (escL v ++ ['\'']) = some v := by
  induction v with
  | nil => rfl
  | cons c v ih =>
    by_cases hc : c = '\''
    · subst hc
      rw [escL_cons_quote]
      show psUnquoteLoop ('\'' :: '\'' :: (escL v ++ ['\''])) = _
      rw [show psUnquoteLoop ('\'' :: '\'' :: (escL v ++ ['\'']))
        = (psUnquoteLoop (escL v ++ ['\''])).map (fun t => '\'' :: t) from rfl]
      rw [ih]
      rfl
    · rw [escL_cons_other v hc]
      show psUnquoteLoop (c :: (escL v ++ ['\''])) = _
      cases htail : escL v ++ ['\''] with
      | nil => simp at htail
      | cons c2 rest =>
        rw [show psUnquoteLoop (c :: c2 :: rest)
          = (psUnquoteLoop (c2 :: rest)).map (fun t => c :: t) from by
            rw [psUnquoteLoop]; simp [hc]]
        rw [← htail, ih]
        rfl

/-- Round trip at string level: PowerShell's single-quote unescaping
recovers the original value from `_ps_quote`'s output, consuming the whole
quoted literal. -/
theorem ps_unquote_ps_quote (v : String) : ps_unquote (ps_quote v) = some v := by
  have hdata : (ps_quote v).data = '\'' :: (escL v.data ++ ['\'']) := by
    show (("'" ++ pyReplaceQuote v) ++ "'").data = _
    rw [String.data_append, String.data_append]
    show (['\''] ++ escL v.data) ++ ['\''] = _
    simp
  unfold ps_unquote
  rw [hdata]
  simp only [if_pos rfl]
  rw [psUnquoteLoop_escL]
  rfl

/-! Claim theorems. -/

/-- C9: `_ps_quote(v)` is a single quote, then `v` with every embedded
single quote doubled, then a closing single quote; PowerShell's
single-quote unescaping recovers `v` exactly while consuming the whole
literal (so no input value can terminate the quoted literal early, and any
trailing remainder makes the scan fail), and `_ps_quote` is injective. -/
theorem c9_ps_quote_roundtrip (v w : String) :
    ps_quote v = "'" ++ pyReplaceQuote v ++ "'"
      ∧ ps_unquote (ps_quote v) = some v
      ∧ (ps_quote v = ps_quote w → v = w) := by
  refine ⟨rfl, ps_unquote_ps_quote v, fun h => ?_⟩
  have hvw : some v = some w := by
    rw [← ps_unquote_ps_quote v, h, ps_unquote_ps_quote w]
  exact Option.some.inj hvw

/-- Witness for C9 at concrete inputs: the round trip on a value with an
embedded quote, and injectivity instantiated with its hypothesis
discharged by `rfl`. -/
theorem c9_witness :
    ps_unquote (ps_quote "O'Brien") = some "O'Brien" ∧ ("a" : String) = "a" :=
  ⟨(c9_ps_quote_roundtrip "O'Brien" "O'Brien").2.1,
   (c9_ps_quote_roundtrip "a" "a").2.2 rfl⟩

/-- C10: a `connect` whose underlying `rasdial.exe` exits with code zero
returns `success = true` and the literal status `"Connected"`; `connect` is
a function of the rasdial outcome alone — no status poll is consulted. -/
theorem c10_connect_exit_zero (exitCode : Int) (out err : String)
    (h : exitCode = 0) :
    (connect (.completed exitCode out err)).success = true
      ∧ (connect (.completed exitCode out err)).status = "Connected" := by
  subst h
  simp [connect, run_rasdial]

/-- Witness for C10: a clean rasdial exit at a concrete input. -/
theorem c10_witness :
    (connect (.completed 0 "Command completed successfully." "")).success = true
      ∧ (connect (.completed 0 "Command completed successfully." "")).status = "Connected" :=
  c10_connect_exit_zero 0 "Command completed successfully." "" rfl

/-- C1 counterexample: the raw status `"Dialing"` — outside the five
enumerated StatusValue variants — is returned verbatim by `get_status` and
stored verbatim by `_to_profiles`; unrecognized raw values are not
normalized to `Unknown`. -/
theorem c1_counterexample_raw_status_passthrough :
    get_status (.rows [{ ConnectionStatus := some (.str "Dialing") }]) = .ok "Dialing"
      ∧ (to_profiles [{ ConnectionStatus := some (.str "Dialing") }] false).map
          (fun p => p.connection_status) = ["Dialing"]
      ∧ ("Dialing" ≠ "Connected" ∧ "Dialing" ≠ "Connecting" ∧ "Dialing" ≠ "Disconnected"
          ∧ "Dialing" ≠ "Unknown" ∧ "Dialing" ≠ "Error") := by
  decide

/-- C1 (amended): the backend only *defaults*, it does not normalize: a
present, truthy raw status string is passed through verbatim by both
`get_status` and `_to_profiles` (so the produced status ranges over all
nonempty raw strings, not just the five enumerated variants); an absent or
empty raw value defaults to `"Unknown"` (as does an empty row list), and a
failed query defaults to `"Error"`. -/
theorem c1_status_defaulting_amended (s m : String) (rest : List Row) (au : Bool)
    (hs : s ≠ "") :
    get_status (.rows ({ ConnectionStatus := some (.str s) } :: rest)) = .ok s
      ∧ (to_profiles [{ ConnectionStatus := some (.str s) }] au).map
          (fun p => p.connection_status) = [s]
      ∧ get_status (.rows [{ ConnectionStatus := some (.str "") }]) = .ok "Unknown"
      ∧ get_status (.rows [{}]) = .ok "Unknown"
      ∧ get_status (.rows []) = .ok "Unknown"
      ∧ get_status (.toolError m) = .ok "Error" := by
  refine ⟨?_, ?_, rfl, rfl, rfl, rfl⟩
  · simp [get_status, run_powershell_json, pyOr, pyTruthy, pyStr, hs]
  · simp [to_profiles, stringify, pyOr, pyTruthy, hs]

/-- Witness for C1 (amended) at a concrete raw status. -/
theorem c1_witness :
    get_status (.rows [{ ConnectionStatus := some (.str "Disconnected") }]) = .ok "Disconnected" :=
  (c1_status_defaulting_amended "Disconnected" "x" [] false (by decide)).1

/-- C8 counterexample: a spec requesting tunnel type `"IKEv2"` lists back
with tunnel type `"Automatic"`: the round trip does not preserve
`tunnel_type`. -/
theorem c8_counterexample_tunnel_type :
    (to_profiles
        [create_echo_row
          { name := "Work VPN", server_address := "vpn.example.com", tunnel_type := "IKEv2" }]
        false).map (fun p => p.tunnel_type) = ["Automatic"]
      ∧ ("Automatic" : String) ≠ "IKEv2" := by
  decide

/-- C8 (amended): against a mutation-storing, echoing command layer,
`create_profile(spec)` followed by a listing yields a profile whose `name`
and `server_address` equal the spec's fields, but whose `tunnel_type` is
always `"Automatic"`: the issued command ignores `spec.tunnel_type`
entirely (first conjunct), so the listed tunnel type matches the spec
exactly when the spec asked for `"Automatic"`. -/
theorem c8_roundtrip_amended (spec : VpnProfileSpec) (t' : String) :
    create_profile_command spec false
        = create_profile_command { spec with tunnel_type := t' } false
      ∧ create_profile true spec false (.completed 0 "" "")
          = .ok { success := true, message := "Created VPN profile " ++ spec.name ++ ".",
                  status := "", details := "" }
      ∧ (to_profiles [create_echo_row spec] false).map
          (fun p => (p.name, p.server_address, p.tunnel_type))
          = [(spec.name, spec.server_address, "Automatic")]
      ∧ ((to_profiles [create_echo_row spec] false).map (fun p => p.tunnel_type)
            = [spec.tunnel_type]
          ↔ spec.tunnel_type = "Automatic") := by
  refine ⟨rfl, rfl, rfl, ?_⟩
  rw [show (to_profiles [create_echo_row spec] false).map (fun p => p.tunnel_type)
    = ["Automatic"] from rfl]
  simp [eq_comm]

/-- C3: credential-aware connect recovery.  First, when the first connect
fails with text classified as credential-related, the prompt completes and
the retry connect succeeds, the final result is the successful retry whose
message is the prompt message annotated with the retry note.  Second, when
the first connect fails with text NOT classified as credential-related, the
original failure is returned verbatim — and since the result is exactly
`connect (w.rasdial 0)`, neither the prompt nor the retry oracle is
consulted. -/
theorem c3_credential_recovery (w : CwWorld) (name : String) :
    ((connect (w.rasdial 0)).success = false →
      is_credential_issue (connect (w.rasdial 0)).message (connect (w.rasdial 0)).details = true →
      w.rasphone = .completed →
      (connect (w.rasdial 1)).success = true →
      (connect_with_credential_recovery w name).success = true
        ∧ (connect_with_credential_recovery w name).message
            = ("Opened Windows credential prompt for " ++ name ++ ".")
                ++ " Retried connection successfully.")
    ∧ ((connect (w.rasdial 0)).success = false →
      is_credential_issue (connect (w.rasdial 0)).message (connect (w.rasdial 0)).details = false →
      connect_with_credential_recovery w name = connect (w.rasdial 0)) := by
  constructor
  · intro h1 h2 hph h3
    simp [connect_with_credential_recovery, h1, h2, hph, h3,
      open_native_credential_prompt]
  · intro h1 h2
    simp [connect_with_credential_recovery, h1, h2]

/-- Witness for C3 at a concrete world: a 691 failure, a completed prompt,
a clean retry. -/
theorem c3_witness :
    (connect_with_credential_recovery
      { rasdial := fun k => if k = 0 then .completed 1 "" "Remote Access error 691" else .completed 0 "done" "",
        rasphone := .completed,
        statusQ := fun _ => .rows [] } "Work").success = true :=
  ((c3_credential_recovery
    { rasdial := fun k => if k = 0 then .completed 1 "" "Remote Access error 691" else .completed 0 "done" "",
      rasphone := .completed,
      statusQ := fun _ => .rows [] } "Work").1
    (by decide) (by decide) rfl (by decide)).1

/-- A failed rasdial invocation always carries status `"Error"`. -/
theorem run_rasdial_fail_status (o : ExecOutcome)
    (h : (run_rasdial o).success = false) : (run_rasdial o).status = "Error" := by
  cases o with
  | timedOut => rfl
  | completed ec out err =>
    by_cases hec : ec = 0
    · subst hec
      simp [run_rasdial] at h
    · simp [run_rasdial, hec]

/-- A returned `_run_powershell` failure always carries status `"Error"`. -/
theorem run_powershell_ok_fail_status {o : ExecOutcome} {m : String} {r : OperationResult}
    (hok : run_powershell o m = .ok r) (h : r.success = false) : r.status = "Error" := by
  cases o with
  | timedOut => simp [run_powershell] at hok
  | completed ec out err =>
    by_cases hec : ec = 0
    · subst hec
      simp [run_powershell] at hok
      rw [← hok] at h
      simp at h
    · simp [run_powershell, hec] at hok
      rw [← hok]

/-- The privilege-gate rejection carries status `"Error"`. -/
theorem ensure_admin_some {a au : Bool} {r : OperationResult}
    (h : ensure_admin a au = some r) : r.status = "Error" ∧ r.success = false := by
  unfold ensure_admin at h
  by_cases hc : (!au || a) = true
  · rw [if_pos hc] at h; cases h
  · rw [if_neg hc] at h
    cases h
    exact ⟨rfl, rfl⟩

/-- C2: across every operation that returns an `OperationResult` — connect,
disconnect, connect_and_wait, create_profile, update_profile,
delete_profile — and every outcome of the underlying external commands, a
returned result with `success = false` never carries status
`"Connected"`. -/
theorem c2_failure_never_connected :
    (∀ o : ExecOutcome, (connect o).success = false → (connect o).status ≠ "Connected")
    ∧ (∀ (o : ExecOutcome) (q : PsJsonResult) (r : OperationResult),
        disconnect o q = .ok r → r.success = false → r.status ≠ "Connected")
    ∧ (∀ (w : CwWorld) (name : String) (pi mw : ℚ) (r : OperationResult),
        connect_and_wait w name pi mw = .ok r → r.success = false → r.status ≠ "Connected")
    ∧ (∀ (a : Bool) (spec : VpnProfileSpec) (au : Bool) (o : ExecOutcome) (r : OperationResult),
        create_profile a spec au o = .ok r → r.success = false → r.status ≠ "Connected")
    ∧ (∀ (a : Bool) (nm : String) (au : Bool) (o : ExecOutcome) (r : OperationResult),
        update_profile a nm au o = .ok r → r.success = false → r.status ≠ "Connected")
    ∧ (∀ (a : Bool) (nm : String) (au : Bool) (o : ExecOutcome) (r : OperationResult),
        delete_profile a nm au o = .ok r → r.success = false → r.status ≠ "Connected") := by
  have hps : ∀ {a : Bool} {au : Bool} {o : ExecOutcome} {m : String} {r : OperationResult},
      (match ensure_admin a au with
        | some errRes => PyResult.ok errRes
        | none => run_powershell o m) = .ok r →
      r.success = false → r.status ≠ "Connected" := by
    intro a au o m r hok hfail
    cases ha : ensure_admin a au with
    | some e =>
      rw [ha] at hok
      cases hok
      rw [(ensure_admin_some ha).1]
      decide
    | none =>
      rw [ha] at hok
      rw [run_powershell_ok_fail_status hok hfail]
      decide
  refine ⟨?_, ?_, ?_, ?_, ?_, ?_⟩
  · intro o h
    rw [show (connect o).status = (run_rasdial o).status from rfl,
      run_rasdial_fail_status o h]
    decide
  · intro o q r hok hfail
    unfold disconnect at hok
    by_cases hras : (run_rasdial o).success = true
    · rw [if_pos hras] at hok
      cases hg : get_status q with
      | raised e => rw [hg] at hok; cases hok
      | ok st =>
        rw [hg] at hok
        cases hok
        simp only [hras] at hfail
        cases hfail
    · rw [if_neg hras] at hok
      cases hok
      rw [run_rasdial_fail_status o (Bool.not_eq_true _ ▸ Bool.of_not_eq_true hras)]
      decide
  · intro w name pi mw r hok hfail
    unfold connect_and_wait at hok
    by_cases hrec : (connect_with_credential_recovery w name).success = true
    · simp only [hrec, Bool.not_true, Bool.false_eq_true, if_false] at hok
      cases hpoll : pollLoop (fun k => get_status (w.statusQ k)) "Connecting"
          (numPolls pi mw) 0 with
      | raised e => rw [hpoll] at hok; cases hok
      | ok ex =>
        rw [hpoll] at hok
        cases ex with
        | connected s =>
          simp only at hok
          cases hok
          cases hfail
        | fell last =>
          simp only at hok
          cases hok
          have hlast : pyLower last ≠ "connected" :=
            pollLoop_fell_not_connected _ (numPolls pi mw) 0 "Connecting" last
              (by decide) hpoll
          by_cases hne : last = ""
          · subst hne
            simp only [ne_eq, not_true_eq_false, if_false]
            decide
          · simp only [ne_eq, hne, not_false_eq_true, if_true]
            exact ne_Connected_of_pyLower hlast
    · have hrec' : (connect_with_credential_recovery w name).success = false :=
        Bool.not_eq_true _ ▸ Bool.of_not_eq_true hrec
      simp only [hrec', Bool.not_false, if_true] at hok
      cases hok
      show ("Error" : String) ≠ "Connected"
      decide
  · intro a spec au o r hok hfail
    exact hps hok hfail
  · intro a nm au o r hok hfail
    exact hps hok hfail
  · intro a nm au o r hok hfail
    exact hps hok hfail

/-- With a successful dispatch, `connect_and_wait` returns the immediate
success result when the polling loop exits on an observed `Connected`. -/
theorem connect_and_wait_connected_of (w : CwWorld) (name : String) (pi mw : ℚ) (s : String)
    (hdisp : (connect_with_credential_recovery w name).success = true)
    (hpoll : pollLoop (fun k => get_status (w.statusQ k)) "Connecting" (numPolls pi mw) 0
      = .ok (.connected s)) :
    connect_and_wait w name pi mw
      = .ok { success := true, message := "Connected to " ++ name ++ ".", status := s } := by
  unfold connect_and_wait
  simp only [hdisp, Bool.not_true, Bool.false_eq_true, if_false, hpoll]

/-- With a successful dispatch, `connect_and_wait` returns the
timeout-path failure when the polling loop falls through carrying `last`. -/
theorem connect_and_wait_fell_of (w : CwWorld) (name : String) (pi mw : ℚ) (last : String)
    (hdisp : (connect_with_credential_recovery w name).success = true)
    (hpoll : pollLoop (fun k => get_status (w.statusQ k)) "Connecting" (numPolls pi mw) 0
      = .ok (.fell last)) :
    connect_and_wait w name pi mw
      = .ok { success := false, message := timeout_failure_message name,
              status := if last ≠ "" then last else "Error",
              details := (connect_with_credential_recovery w name).details } := by
  unfold connect_and_wait
  simp only [hdisp, Bool.not_true, Bool.false_eq_true, if_false, hpoll]
  rw [fell_message_eq]

/-- C4 counterexample: with `max_wait = 0` no poll ever runs and no status
is ever observed, yet the failure's status is the initial placeholder
`"Connecting"`, not `"Error"` as the claim requires (`last_status` is
initialized to `"Connecting"` on line 75, so the `"Error"` fallback for an
empty status is unreachable). -/
theorem c4_counterexample_no_poll_status :
    connect_and_wait
        { rasdial := fun _ => .completed 0 "OK" "", rasphone := .completed,
          statusQ := fun _ => .rows [] } "Work" 1 0
      = .ok { success := false, message := timeout_failure_message "Work",
              status := "Connecting", details := "OK" }
      ∧ ("Connecting" : String) ≠ "Error" := by
  constructor
  · have hnum : numPolls (1 : ℚ) 0 = 0 := by norm_num [numPolls]
    have h := connect_and_wait_fell_of
      { rasdial := fun _ => .completed 0 "OK" "", rasphone := .completed,
        statusQ := fun _ => .rows [] }
      "Work" 1 0 "Connecting" (by decide) (by rw [hnum]; rfl)
    rw [h]
    rw [if_pos (by decide : ("Connecting" : String) ≠ "")]
    rfl
  · decide

/-- C4 (amended): whenever the polling deadline is exhausted without a poll
observing `Connected` (and no observation was an `Error` stop), the
operation returns a failure whose status is the last observed status — or
the initial placeholder `"Connecting"` when no poll ever ran (including
`max_wait ≤ 0`), never `"Error"` for that case — and whose message is the
fixed timeout message with the credential hints appended (the hints are
always appended: the timeout text itself matches the credential
heuristic). -/
theorem c4_timeout_path_amended (w : CwWorld) (name : String) (pi mw : ℚ)
    (obs : Nat → String)
    (hpi : 0 < pi)
    (hdisp : (connect_with_credential_recovery w name).success = true)
    (hobs : ∀ i, i < numPolls pi mw → get_status (w.statusQ i) = .ok (obs i) ∧
      pyLower (obs i) ≠ "connected" ∧ pyLower (obs i) ≠ "error") :
    connect_and_wait w name pi mw
      = .ok { success := false, message := timeout_failure_message name,
              status := if numPolls pi mw = 0 then "Connecting" else obs (numPolls pi mw - 1),
              details := (connect_with_credential_recovery w name).details } := by
  have hpoll := pollLoop_deadline (fun k => get_status (w.statusQ k)) obs
    (numPolls pi mw) "Connecting" hobs
  have hfin := connect_and_wait_fell_of w name pi mw _ hdisp hpoll
  rw [hfin]
  by_cases hn : numPolls pi mw = 0
  · rw [if_pos hn]
    rw [if_pos (by decide : ("Connecting" : String) ≠ "")]
  · rw [if_neg hn]
    rw [if_pos (get_status_ne_empty (hobs (numPolls pi mw - 1) (by omega)).1)]

/-- Witness for C4 (amended): two polls both observing `Connecting`, then
deadline exhaustion. -/
theorem c4_witness :
    connect_and_wait
        { rasdial := fun _ => .completed 0 "OK" "", rasphone := .completed,
          statusQ := fun _ => .rows [{ ConnectionStatus := some (.str "Connecting") }] }
        "Work" 1 2
      = .ok { success := false, message := timeout_failure_message "Work",
              status := "Connecting", details := "OK" } := by
  have h := c4_timeout_path_amended
    { rasdial := fun _ => .completed 0 "OK" "", rasphone := .completed,
      statusQ := fun _ => .rows [{ ConnectionStatus := some (.str "Connecting") }] }
    "Work" 1 2 (fun _ => "Connecting") one_pos (by decide)
    (by
      intro i _
      refine ⟨rfl, ?_, ?_⟩
      · show pyLower "Connecting" ≠ "connected"
        decide
      · show pyLower "Connecting" ≠ "error"
        decide)
  rw [h, show numPolls (1 : ℚ) 2 = 2 from by norm_num [numPolls],
    if_neg (by decide : ¬ (2 : Nat) = 0)]
  rfl

/-- C5: the polling loop's early exits.  Under a successful dispatch and
`j` non-terminal observations, (a) when poll `j` observes a status lowering
to `"connected"`, the call returns the success result immediately; (b) when
poll `j` observes a status lowering to `"error"`, the loop stops and falls
through to the timeout/failure path with that status.  In both parts the
conclusion holds for every world `w'` that agrees with `w` only up to poll
`j`: polls after the terminal observation are never consulted, so the loop
does not wait out the remaining budget and performs no further polls after
an error. -/
theorem c5_poll_early_exit (w w' : CwWorld) (name : String) (pi mw : ℚ)
    (obs : Nat → String) (j : Nat)
    (hdisp : (connect_with_credential_recovery w name).success = true)
    (hpre : ∀ i, i < j → get_status (w.statusQ i) = .ok (obs i) ∧
      pyLower (obs i) ≠ "connected" ∧ pyLower (obs i) ≠ "error")
    (hj : j < numPolls pi mw)
    (hras : w'.rasdial = w.rasdial) (hph : w'.rasphone = w.rasphone)
    (hst : ∀ i, i ≤ j → w'.statusQ i = w.statusQ i) :
    (∀ s, get_status (w.statusQ j) = .ok s → pyLower s = "connected" →
      connect_and_wait w' name pi mw
        = .ok { success := true, message := "Connected to " ++ name ++ ".", status := s })
    ∧ (∀ s, get_status (w.statusQ j) = .ok s → pyLower s = "error" →
      connect_and_wait w' name pi mw
        = .ok { success := false, message := timeout_failure_message name, status := s,
                details := (connect_with_credential_recovery w name).details }) := by
  have hrec := recovery_congr name hras hph
  have hdisp' : (connect_with_credential_recovery w' name).success = true := by
    rw [hrec]; exact hdisp
  obtain ⟨d, hd⟩ : ∃ d, numPolls pi mw - j = d + 1 := ⟨numPolls pi mw - j - 1, by omega⟩
  have hpre' : ∀ i, i < j →
      (fun k => get_status (w'.statusQ k)) (0 + i) = .ok (obs (0 + i)) ∧
      pyLower (obs (0 + i)) ≠ "connected" ∧ pyLower (obs (0 + i)) ≠ "error" := by
    intro i hi
    have h1 := hpre i hi
    simp only [Nat.zero_add]
    rw [hst i (Nat.le_of_lt hi)]
    exact h1
  have hrun := pollLoop_advance (fun k => get_status (w'.statusQ k)) obs j
    (numPolls pi mw) 0 "Connecting" hpre' (Nat.le_of_lt hj)
  constructor
  · intro s hs hconn
    have hfj : (fun k => get_status (w'.statusQ k)) (0 + j) = .ok s := by
      simp only [Nat.zero_add]
      rw [hst j le_rfl]; exact hs
    have hpoll : pollLoop (fun k => get_status (w'.statusQ k)) "Connecting"
        (numPolls pi mw) 0 = .ok (.connected s) := by
      rw [hrun, hd]
      exact pollLoop_succ_connected hfj hconn _ d
    exact connect_and_wait_connected_of w' name pi mw s hdisp' hpoll
  · intro s hs herr
    have hfj : (fun k => get_status (w'.statusQ k)) (0 + j) = .ok s := by
      simp only [Nat.zero_add]
      rw [hst j le_rfl]; exact hs
    have hnc : pyLower s ≠ "connected" := by rw [herr]; decide
    have hpoll : pollLoop (fun k => get_status (w'.statusQ k)) "Connecting"
        (numPolls pi mw) 0 = .ok (.fell s) := by
      rw [hrun, hd]
      exact pollLoop_succ_error hfj hnc herr _ d
    have hfin := connect_and_wait_fell_of w' name pi mw s hdisp' hpoll
    rw [hfin, hrec, if_pos (ne_empty_of_pyLower_eq (by decide) herr)]

/-- Witness for C5 at a concrete world (part a): `Connecting` then
`Connected` returns success on the second poll, well before the 20-poll
budget. -/
theorem c5_witness :
    connect_and_wait
        { rasdial := fun _ => .completed 0 "OK" "", rasphone := .completed,
          statusQ := fun k => if k = 0 then .rows [{ ConnectionStatus := some (.str "Connecting") }]
            else .rows [{ ConnectionStatus := some (.str "Connected") }] }
        "Work" 1 20
      = .ok { success := true, message := "Connected to " ++ "Work" ++ ".",
              status := "Connected" } :=
  (c5_poll_early_exit
    { rasdial := fun _ => .completed 0 "OK" "", rasphone := .completed,
      statusQ := fun k => if k = 0 then .rows [{ ConnectionStatus := some (.str "Connecting") }]
        else .rows [{ ConnectionStatus := some (.str "Connected") }] }
    { rasdial := fun _ => .completed 0 "OK" "", rasphone := .completed,
      statusQ := fun k => if k = 0 then .rows [{ ConnectionStatus := some (.str "Connecting") }]
        else .rows [{ ConnectionStatus := some (.str "Connected") }] }
    "Work" 1 20 (fun _ => "Connecting") 1 (by decide)
    (fun i hi => by
      have hi0 : i = 0 := by omega
      subst hi0
      exact ⟨rfl, by decide, by decide⟩)
    (by rw [show numPolls (1 : ℚ) 20 = 20 from by norm_num [numPolls]]; omega)
    rfl rfl (fun i _ => rfl)).1 "Connected" rfl (by decide)

/-- Witness for C2: a failed rasdial dispatch at a concrete input. -/
theorem c2_witness :
    (connect (.completed 1 "Access was denied" "")).status ≠ "Connected" :=
  c2_failure_never_connected.1 (.completed 1 "Access was denied" "") (by decide)

/-- C6 counterexample: a non-zero exit (or malformed output) of the
own-scope listing query — one of the enumerated Command Executor failure
modes — escapes `list_profiles` as a raised `RuntimeError` instead of being
converted to a returned value: nothing guards the `_list_user_profiles`
call on line 20. -/
theorem c6_counterexample_list_profiles_raises :
    list_profiles
        { admin := true,
          userQuery := .toolError "The term Get-VpnConnection is not recognized",
          allUserQuery := .rows [] } false
      = .raised (.runtimeError "The term Get-VpnConnection is not recognized") := rfl

/-- C6 (amended): the conversion of executor failures to returned values is
partial, not total.  Converted: a `RuntimeError` of the status query
(defaulted to `"Error"` by `get_status`); a rasdial timeout and non-zero
exit (returned `OperationResult`s from `connect` and `disconnect`); a
`RuntimeError` of the system-scope listing query (recorded in `last_error`
with the own-scope results still returned); and a failed dispatch inside
`connect_and_wait` (returned with status `"Error"`).  Not converted: a
failing own-scope listing query escapes as `RuntimeError`, and
`subprocess.TimeoutExpired` escapes from the PowerShell-based operations
(`create_profile` and the status query). -/
theorem c6_error_conversion_amended :
    (∀ m : String, get_status (.toolError m) = .ok "Error")
    ∧ ((connect ExecOutcome.timedOut).success = false
        ∧ (connect ExecOutcome.timedOut).status = "Error")
    ∧ (∀ q : PsJsonResult,
        disconnect ExecOutcome.timedOut q = .ok (run_rasdial ExecOutcome.timedOut))
    ∧ (∀ (rs : List Row) (m : String),
        list_profiles { admin := true, userQuery := .rows rs, allUserQuery := .toolError m } true
          = .ok (to_profiles rs false, "All-user query failed: " ++ m))
    ∧ (∀ (w : CwWorld) (name : String) (pi mw : ℚ),
        (connect_with_credential_recovery w name).success = false →
        connect_and_wait w name pi mw
          = .ok { connect_with_credential_recovery w name with status := "Error" })
    ∧ (∀ (m : String) (q : PsJsonResult),
        list_profiles { admin := true, userQuery := .toolError m, allUserQuery := q } false
          = .raised (.runtimeError m))
    ∧ (∀ spec : VpnProfileSpec,
        create_profile true spec false ExecOutcome.timedOut = .raised .timeoutExpired)
    ∧ get_status PsJsonResult.timeout = .raised .timeoutExpired := by
  refine ⟨fun m => rfl, ⟨rfl, rfl⟩, fun q => rfl, fun rs m => rfl, ?_, fun m q => rfl,
    fun spec => rfl, rfl⟩
  intro w name pi mw h
  unfold connect_and_wait
  have h' : (!(connect_with_credential_recovery w name).success) = true := by
    rw [h]; rfl
  rw [if_pos h']

/-- Witness for C6 (amended): the dispatch-failure clause instantiated at a
concrete world whose rasdial invocations time out. -/
theorem c6_witness :
    connect_and_wait
        { rasdial := fun _ => ExecOutcome.timedOut, rasphone := .completed,
          statusQ := fun _ => .rows [] } "Work" 1 20
      = .ok { connect_with_credential_recovery
                { rasdial := fun _ => ExecOutcome.timedOut, rasphone := .completed,
                  statusQ := fun _ => .rows [] } "Work"
              with status := "Error" } :=
  c6_error_conversion_amended.2.2.2.2.1
    { rasdial := fun _ => ExecOutcome.timedOut, rasphone := .completed,
      statusQ := fun _ => .rows [] } "Work" 1 20 (by decide)

/-- C7 counterexample: when the system-scope query fails by timing out (a
Command Executor failure per the spec's ExternalToolError taxonomy), the
own-scope results are NOT returned: `subprocess.TimeoutExpired` is not a
`RuntimeError`, so the `except RuntimeError` on line 30 does not catch it
and the whole call raises. -/
theorem c7_counterexample_timeout_escapes :
    list_profiles
        { admin := true, userQuery := .rows [{ Name := some (.str "Own") }],
          allUserQuery := .timeout } true
      = .raised PyExc.timeoutExpired := rfl

/-- C7 (amended): `list_profiles(include_system_scope=true)` without
elevation returns exactly the own-scope profiles with the advisory recorded
in `last_error`, and issues zero system-scope queries (the result is
independent of the system-scope oracle); and when the system-scope query
fails with a non-zero exit or malformed output (its `RuntimeError` cases),
the own-scope results are still returned with the failure recorded the same
way — but a system-scope query timeout escapes as an exception instead
(see the counterexample). -/
theorem c7_list_profiles_amended (rs : List Row) (m : String) (q q' : PsJsonResult) :
    (list_profiles { admin := false, userQuery := .rows rs, allUserQuery := q } true
        = .ok (to_profiles rs false, adminListAdvisory))
    ∧ (list_profiles { admin := false, userQuery := .rows rs, allUserQuery := q } true
        = list_profiles { admin := false, userQuery := .rows rs, allUserQuery := q' } true)
    ∧ (list_profiles { admin := true, userQuery := .rows rs, allUserQuery := .toolError m } true
        = .ok (to_profiles rs false, "All-user query failed: " ++ m)) :=
  ⟨rfl, rfl, rfl⟩

end WinVpn
